import Mathlib

/-!
Verification of the files_manager metadata / access-control subsystem.

The definitions below are a shallow embedding of the JavaScript sources:
  src/utils/basic.js   (basicUtils.isValidId)
  src/utils/user.js    (userUtils.getUserIdAndKey, userUtils.getUser)
  src/utils/file.js    (fileUtils.validateBody, getFile, getFilesOfParentId,
                        saveFile, updateFile, publishUnpublish, processFile,
                        isOwnerAndPublic, getFileData)
  src/unnamed/part_000 (FilesController.postUpload, getShow, getIndex,
                        putPublish, putUnpublish, getFile)

Conventions of the embedding:
* JavaScript values that flow through the id / parentId plumbing are modelled
  by `Jval` (null, number, string); JSON request bodies can carry any of them.
* MongoDB ObjectId construction (`ObjectId(v)`) throws exactly when `v` is a
  string that is neither 12 characters nor 24 hex characters; `null`,
  `undefined` and numbers are always accepted and produce a *fresh* ObjectId
  (generated / time-based).  A fresh ObjectId matches no stored record: the
  model treats that probability-zero collision as impossible.
* The catalog and the user directory are lists in natural insertion order;
  identifiers are canonicalised to strings.
* Token resolution (`userUtils.getUserIdAndKey`) yields the raw Redis value:
  `null` when there is no X-Token header or no Identity Store entry, otherwise
  the stored user-id string.  Controllers below take that resolved `Jval`.
* Exceptions that escape a controller (unhandled promise rejections) are
  modelled by the `Outcome.crash` constructor.
-/

namespace FilesManager

/-- JavaScript values appearing in request bodies and id plumbing. -/
inductive Jval where
  | vnull : Jval
  | vnum : Int → Jval
  | vstr : String → Jval
deriving DecidableEq, Repr

/-- JavaScript truthiness test restricted to `Jval`: null, 0 and the empty
string are falsy. -/
def jFalsy : Jval → Bool
  | .vnull => true
  | .vnum n => n == 0
  | .vstr s => s == ""

/-- Hexadecimal character test, as accepted by the ObjectId parser. -/
def isHexChar (c : Char) : Bool :=
  c.isDigit || ('a' ≤ c && c ≤ 'f') || ('A' ≤ c && c ≤ 'F')

/-- String shapes the ObjectId constructor accepts: 12 raw bytes or a
24-character hex representation. -/
def validIdString (s : String) : Bool :=
  s.length == 12 || (s.length == 24 && s.toList.all isHexChar)

/-- src/utils/basic.js `basicUtils.isValidId`: `ObjectId(id)` inside a
try/catch.  The constructor throws only for strings of the wrong shape;
null and numbers are accepted (a fresh / time-based ObjectId is generated),
so they count as "valid". -/
def isValidId : Jval → Bool
  | .vnull => true
  | .vnum _ => true
  | .vstr s => validIdString s

/-- Whether the bare expression `ObjectId(v)` throws (no try/catch). -/
def objIdThrows : Jval → Bool
  | .vstr s => !validIdString s
  | _ => false

/-- Catalog key denoted by `ObjectId(v)`: a well-formed id string denotes
itself; null and numbers construct a fresh ObjectId, which matches no stored
record (returned as `none`). -/
def objIdKey : Jval → Option String
  | .vstr s => if validIdString s then some s else none
  | _ => none

/-- A File record as stored in the catalog (the `files` collection). -/
structure FileDoc where
  _id : String
  userId : String
  name : String
  type : String
  isPublic : Bool
  parentId : Jval
  localPath : Option String
deriving DecidableEq, Repr

/-- Outward projection of a File record: `fileUtils.processFile` renames
`_id` to `id` and strips `localPath`. -/
structure OutFile where
  id : String
  userId : String
  name : String
  type : String
  isPublic : Bool
  parentId : Jval
deriving DecidableEq, Repr

/-- src/utils/file.js `fileUtils.processFile`. -/
def processFile (d : FileDoc) : OutFile :=
  { id := d._id, userId := d.userId, name := d.name, type := d.type,
    isPublic := d.isPublic, parentId := d.parentId }

/-- src/utils/file.js `fileUtils.getFile` at the query shape used by
postUpload / getIndex / getFile: lookup by `_id` only. -/
def getFileById (files : List FileDoc) (k : String) : Option FileDoc :=
  files.find? (fun f => f._id == k)

/-- src/utils/file.js `fileUtils.getFile` at the query shape used by
getShow / publishUnpublish: lookup by `_id` and owner. -/
def getFileByIdAndUser (files : List FileDoc) (k u : String) : Option FileDoc :=
  files.find? (fun f => f._id == k && f.userId == u)

/-- External stores shared by the controllers: the User Directory (user
record ids) and the File Catalog in natural insertion order. -/
structure Store where
  users : List String
  files : List FileDoc
deriving DecidableEq, Repr

/-- src/utils/user.js `userUtils.getUser` composed with `ObjectId(userId)` as
every controller calls it.  `none` when the ObjectId is fresh (null / number)
or no user record matches.  Callers either guard with `isValidId` or with
`objIdThrows`; for an ill-shaped string (unreachable behind those guards)
the lookup also finds nothing. -/
def findUser (users : List String) (userId : Jval) : Option String :=
  match userId with
  | .vstr s => if validIdString s && users.contains s then some s else none
  | _ => none

/-- src/utils/user.js `userUtils.getUserIdAndKey`: null without an X-Token
header; otherwise the Identity Store value at key `auth_` ++ token, null
when that key is absent. -/
def getUserIdAndKey (redis : List (String × String)) (xToken : Option String) : Jval :=
  match xToken with
  | none => .vnull
  | some t =>
    match (redis.find? (fun kv => kv.1 == "auth_" ++ t)).map (fun kv => kv.2) with
    | none => .vnull
    | some v => .vstr v

/-- Request body of createFile as parsed from JSON.  Absent `name`, `type`,
`data` destructure to `undefined`, which the code only ever tests for
falsiness; the empty string stands for them.  `parentId` defaults to the
number 0 when the key is absent (note: a JSON `null` does *not* trigger the
destructuring default). -/
structure ReqBody where
  name : String
  type : String
  isPublic : Bool
  data : String
  parentId : Jval
deriving DecidableEq, Repr

/-- Validated creation parameters (`fileParams`). -/
structure FileParams where
  name : String
  type : String
  parentId : Jval
  isPublic : Bool
  data : String
deriving DecidableEq, Repr

def typesAllowed : List String := ["file", "image", "folder"]

/-- The `if (parentId === '0') parentId = 0` normalisation at the top of
`fileUtils.validateBody`. -/
def normParent (pid : Jval) : Jval :=
  if pid == Jval.vstr "0" then Jval.vnum 0 else pid

/-- Parent lookup as performed inside `validateBody`:
`getFile obrace _id: ObjectId(parentId) cbrace` guarded by `isValidId`. -/
def parentLookup (files : List FileDoc) (pid : Jval) : Option FileDoc :=
  match objIdKey pid with
  | some k => getFileById files k
  | none => none

/-- src/utils/file.js `fileUtils.validateBody`. -/
def validateBody (files : List FileDoc) (body : ReqBody) :
    Option String × FileParams :=
  let parentId := normParent body.parentId
  let msg : Option String :=
    if body.name == "" then
      some "Missing name"
    else if body.type == "" || !typesAllowed.contains body.type then
      some "Missing type"
    else if body.data == "" && body.type != "folder" then
      some "Missing data"
    else if !jFalsy parentId && parentId != Jval.vstr "0" then
      let file : Option FileDoc :=
        if isValidId parentId then parentLookup files parentId else none
      match file with
      | none => some "Parent not found"
      | some f => if f.type != "folder" then some "Parent is not a folder" else none
    else
      none
  (msg, { name := body.name, type := body.type, parentId := parentId,
          isPublic := body.isPublic, data := body.data })

/-- Thumbnail jobs put on the Bull `fileQueue` by postUpload. -/
inductive Job where
  | emptyJob : Job
  | userJob : String → Job
  | fileJob : String → String → Job
deriving DecidableEq, Repr

/-- Body of an HTTP response sent by a controller. -/
inductive RBody where
  | errMsg : String → RBody
  | errStr : String → RBody
  | fileOut : OutFile → RBody
  | fileList : List OutFile → RBody
  | bytes : String → RBody
deriving DecidableEq, Repr

/-- Result of a request: a response with a status code and body, or an
exception escaping the controller (unhandled promise rejection — the client
receives nothing), or a request whose further behavior this integer
embedding deliberately does not predict (`unmodeled`, produced only by
getIndex when the page query parses to a numeric value that is not an
exactly tracked integer — e.g. a fraction, an overflow, or Infinity — so
the program would compute an IEEE-double skip the model cannot express; no
theorem below asserts anything about such requests). -/
inductive Outcome where
  | resp : Nat → RBody → Outcome
  | crash : String → Outcome
  | unmodeled : String → Outcome
deriving DecidableEq, Repr

/-- Per-request environment: whether the blob placement (mkdir + writeFile in
`fileUtils.saveFile`) fails and with which message, the id the catalog
assigns to the inserted record, the fresh uuid blob location, and the fresh
ObjectId produced when `ObjectId` is fed null or a number. -/
structure Ctx where
  blobWriteFails : Bool
  blobErrMsg : String
  freshId : String
  freshPath : String
  freshOid : String
deriving DecidableEq, Repr

/-- The `if (parentId !== 0) parentId = ObjectId(parentId)` conversion at the
top of `fileUtils.saveFile`: a well-formed id string denotes itself, while
null or a number yields a fresh ObjectId. -/
def saveParentId (ctx : Ctx) (pid : Jval) : Jval :=
  if pid == Jval.vnum 0 then pid
  else
    match objIdKey pid with
    | some k => Jval.vstr k
    | none => Jval.vstr ctx.freshOid

/-- Result of `fileUtils.saveFile`: an error object (no catalog insert
happened) or the projected new record together with the catalog after the
insert. -/
inductive SaveResult where
  | failure : String → Nat → SaveResult
  | success : OutFile → List FileDoc → SaveResult
deriving DecidableEq, Repr

/-- src/utils/file.js `fileUtils.saveFile`: for non-folders write the decoded
bytes to a fresh location (an error there returns code 400 before any
insert), then insert the catalog record and return its projection. -/
def saveFile (ctx : Ctx) (files : List FileDoc) (userId : String)
    (p : FileParams) : SaveResult :=
  let parentId := saveParentId ctx p.parentId
  if p.type != "folder" && ctx.blobWriteFails then
    .failure ctx.blobErrMsg 400
  else
    let localPath := if p.type != "folder" then some ctx.freshPath else none
    let doc : FileDoc :=
      { _id := ctx.freshId, userId := userId, name := p.name, type := p.type,
        isPublic := p.isPublic, parentId := parentId, localPath := localPath }
    let out : OutFile :=
      { id := ctx.freshId, userId := userId, name := p.name, type := p.type,
        isPublic := p.isPublic, parentId := parentId }
    .success out (files ++ [doc])

/-- Result of FilesController.postUpload: outcome plus the catalog and the
file queue after the request. -/
structure UploadResult where
  outcome : Outcome
  files : List FileDoc
  queue : List Job
deriving DecidableEq, Repr

/-- src/unnamed/part_000 `FilesController.postUpload`.  Note two quirks kept
from the source: (1) an unauthenticated image request enqueues an empty job
before the 401 because `isValidId(null)` is true; (2) the save-error branch
reads `response.body.type` — `response.body` is undefined on an Express
response, so that branch throws a TypeError instead of answering. -/
def postUpload (ctx : Ctx) (store : Store) (queue : List Job)
    (userId : Jval) (body : ReqBody) : UploadResult :=
  if !isValidId userId then
    { outcome := .resp 401 (.errMsg "Unauthorized"), files := store.files,
      queue := queue }
  else
    let queue := if jFalsy userId && body.type == "image" then
      queue ++ [Job.emptyJob] else queue
    match findUser store.users userId with
    | none =>
      { outcome := .resp 401 (.errMsg "Unauthorized"), files := store.files,
        queue := queue }
    | some uid =>
      let v := validateBody store.files body
      match v.1 with
      | some e =>
        { outcome := .resp 400 (.errMsg e), files := store.files, queue := queue }
      | none =>
        let fileParams := v.2
        if fileParams.parentId != Jval.vnum 0 && !isValidId fileParams.parentId then
          { outcome := .resp 400 (.errMsg "Parent not found"),
            files := store.files, queue := queue }
        else
          match saveFile ctx store.files uid fileParams with
          | .failure _ _ =>
            { outcome := .crash "TypeError: response.body is undefined",
              files := store.files, queue := queue }
          | .success newFile files2 =>
            let queue := if fileParams.type == "image" then
              queue ++ [Job.fileJob newFile.id newFile.userId] else queue
            { outcome := .resp 201 (.fileOut newFile), files := files2,
              queue := queue }

/-- src/unnamed/part_000 `FilesController.getShow`.  `ObjectId(userId)` runs
before any validity check, so an ill-shaped id string from the Identity
Store would throw. -/
def getShow (store : Store) (userId : Jval) (fileId : String) : Outcome :=
  if objIdThrows userId then .crash "BSONTypeError: invalid ObjectId"
  else
    match findUser store.users userId with
    | none => .resp 401 (.errMsg "Unauthorized")
    | some uid =>
      if !validIdString fileId || !isValidId userId then
        .resp 404 (.errMsg "Not found")
      else
        match getFileByIdAndUser store.files fileId uid with
        | none => .resp 404 (.errMsg "Not found")
        | some f => .resp 200 (.fileOut (processFile f))

/-- Aggregation stages used by getIndex. -/
inductive Stage where
  | smatch : Jval → Stage
  | sskip : Int → Stage
  | slimit : Nat → Stage
deriving DecidableEq, Repr

/-- One MongoDB aggregation stage.  A negative argument to the skip stage is
rejected by the server. -/
def runStage (files : List FileDoc) : Stage → Except String (List FileDoc)
  | .smatch pid => .ok (files.filter (fun f => f.parentId == pid))
  | .sskip n =>
    if n < 0 then .error "MongoError: skip must not be negative"
    else .ok (files.drop n.toNat)
  | .slimit n => .ok (files.take n)

/-- src/utils/file.js `fileUtils.getFilesOfParentId`: run the aggregation
pipeline over the files collection. -/
def getFilesOfParentId (files : List FileDoc) : List Stage → Except String (List FileDoc)
  | [] => .ok files
  | s :: rest =>
    match runStage files s with
    | .error e => .error e
    | .ok fs => getFilesOfParentId fs rest

/-- Result of converting a string with JavaScript `Number()`: NaN (the
string fails the StringNumericLiteral grammar), an exactly tracked integer
value (the mathematical value of the literal is an integer of magnitude
below 2^53, where conversion to a double is exact), or a numeric value the
integer embedding does not track (non-integral, at least 2^53 in
magnitude, or infinite — representing it needs IEEE doubles).  `intVal n`
means `Number(s)` is exactly `n`; `nan` means `Number(s)` is NaN; no claim
is settled on `unmodeled` inputs. -/
inductive JsNum where
  | nan : JsNum
  | intVal : Int → JsNum
  | unmodeled : JsNum
deriving DecidableEq, Repr

/-- Code points `Number()` trims: ECMAScript WhiteSpace (tab, vertical tab,
form feed, space, no-break space, zero-width no-break space, the Unicode
space separators) and LineTerminator (LF, CR, LS, PS). -/
def jsWhitespace (c : Char) : Bool :=
  [9, 10, 11, 12, 13, 32, 160, 5760, 8192, 8193, 8194, 8195, 8196, 8197,
    8198, 8199, 8200, 8201, 8202, 8232, 8233, 8239, 8287, 12288,
    65279].contains c.toNat

/-- Strip leading and trailing whitespace. -/
def trimWs (cs : List Char) : List Char :=
  ((cs.dropWhile jsWhitespace).reverse.dropWhile jsWhitespace).reverse

/-- Value of a decimal digit string (0 for the empty list). -/
def digitsToInt (cs : List Char) : Int :=
  cs.foldl (fun n c => n * 10 + ((c.toNat : Int) - 48)) 0

/-- Split off the longest leading run of decimal digits. -/
def spanDigits : List Char → List Char × List Char
  | [] => ([], [])
  | c :: cs =>
    if c.isDigit then
      let p := spanDigits cs
      (c :: p.1, p.2)
    else ([], c :: cs)

def isOctChar (c : Char) : Bool := '0' ≤ c && c ≤ '7'

def isBinChar (c : Char) : Bool := c == '0' || c == '1'

/-- Value of a hexadecimal digit. -/
def hexDigitVal (c : Char) : Int :=
  if c.isDigit then (c.toNat : Int) - 48
  else if 'a' ≤ c && c ≤ 'f' then (c.toNat : Int) - 87
  else (c.toNat : Int) - 55

/-- Value of a digit string in radix r. -/
def radixToInt (r : Int) (cs : List Char) : Int :=
  cs.foldl (fun n c => n * r + hexDigitVal c) 0

def twoPow53 : Int := 9007199254740992

/-- A non-negative integer literal value: exactly tracked below 2^53,
unmodeled beyond (double conversion may round there). -/
def intIfExact (v : Int) : JsNum :=
  if v < twoPow53 then .intVal v else .unmodeled

/-- ExponentPart of a decimal literal: the empty remainder means exponent
0; otherwise e or E, an optional sign, and at least one digit consuming
the whole remainder — anything else makes the literal invalid. -/
def parseExpPart : List Char → Option Int
  | [] => some 0
  | c :: cs =>
    if c == 'e' || c == 'E' then
      match cs with
      | '+' :: ds =>
        if !ds.isEmpty && ds.all Char.isDigit then some (digitsToInt ds)
        else none
      | '-' :: ds =>
        if !ds.isEmpty && ds.all Char.isDigit then some (-(digitsToInt ds))
        else none
      | ds =>
        if !ds.isEmpty && ds.all Char.isDigit then some (digitsToInt ds)
        else none
    else none

/-- Classify the value of a decimal literal with the given sign, integer
digits, fraction digits and exponent.  The mathematical value is
digits(intD ++ fracD) * 10 ^ (exp - length fracD); it is reported as an
exact integer when it is one of magnitude below 2^53 (the exponent bounds
only skip power computations that would certainly leave that range). -/
def decClassify (neg : Bool) (intD fracD : List Char) (exp : Int) : JsNum :=
  let mant := digitsToInt (intD ++ fracD)
  let e : Int := exp - fracD.length
  if mant = 0 then .intVal 0
  else if 0 ≤ e then
    if e ≤ 40 then
      let v := mant * (10 : Int) ^ e.toNat
      if v < twoPow53 then .intVal (if neg then -v else v) else .unmodeled
    else .unmodeled
  else
    let k := (-e).toNat
    if k ≤ 400 then
      let d := (10 : Int) ^ k
      if mant % d = 0 then
        let v := mant / d
        if v < twoPow53 then .intVal (if neg then -v else v) else .unmodeled
      else .unmodeled
    else .unmodeled

/-- StrUnsignedDecimalLiteral: Infinity (a numeric, untracked value), or
digits with an optional dot, fraction digits and exponent part, with at
least one digit overall. -/
def parseUnsignedDec (neg : Bool) (cs : List Char) : JsNum :=
  if cs = ['I', 'n', 'f', 'i', 'n', 'i', 't', 'y'] then .unmodeled
  else
    let p := spanDigits cs
    match p.2 with
    | '.' :: rest =>
      let q := spanDigits rest
      if p.1.isEmpty && q.1.isEmpty then .nan
      else
        match parseExpPart q.2 with
        | none => .nan
        | some exp => decClassify neg p.1 q.1 exp
    | other =>
      if p.1.isEmpty then .nan
      else
        match parseExpPart other with
        | none => .nan
        | some exp => decClassify neg p.1 [] exp

/-- Model of JavaScript `Number(s)` on strings, per the StringNumericLiteral
grammar: trimmed-empty is 0; an optional sign applies to a decimal literal
or Infinity; unsigned hex / octal / binary integer literals; everything
else is NaN. -/
def jsNumberVal (s : String) : JsNum :=
  match trimWs s.toList with
  | [] => .intVal 0
  | '+' :: rest => parseUnsignedDec false rest
  | '-' :: rest => parseUnsignedDec true rest
  | '0' :: 'x' :: ds =>
    if !ds.isEmpty && ds.all isHexChar then intIfExact (radixToInt 16 ds)
    else .nan
  | '0' :: 'X' :: ds =>
    if !ds.isEmpty && ds.all isHexChar then intIfExact (radixToInt 16 ds)
    else .nan
  | '0' :: 'o' :: ds =>
    if !ds.isEmpty && ds.all isOctChar then intIfExact (radixToInt 8 ds)
    else .nan
  | '0' :: 'O' :: ds =>
    if !ds.isEmpty && ds.all isOctChar then intIfExact (radixToInt 8 ds)
    else .nan
  | '0' :: 'b' :: ds =>
    if !ds.isEmpty && ds.all isBinChar then intIfExact (radixToInt 2 ds)
    else .nan
  | '0' :: 'B' :: ds =>
    if !ds.isEmpty && ds.all isBinChar then intIfExact (radixToInt 2 ds)
    else .nan
  | rest => parseUnsignedDec false rest

/-- The page value of getIndex: `Number(request.query.page)` on the query
string, NaN when the parameter is absent (Number(undefined)). -/
def pageNum (pageQ : Option String) : JsNum :=
  match pageQ with
  | none => JsNum.nan
  | some s => jsNumberVal s

/-- src/unnamed/part_000 `FilesController.getIndex`.  The page computation
is `Number(request.query.page) || 0` with the isNaN guard: NaN (and 0)
become page 0, a tracked integer is kept, and a numeric page value the
integer embedding cannot represent yields the `unmodeled` outcome at the
point where the pipeline would consume it. -/
def getIndex (store : Store) (userId : Jval) (parentIdQ pageQ : Option String) :
    Outcome :=
  if objIdThrows userId then .crash "BSONTypeError: invalid ObjectId"
  else
    match findUser store.users userId with
    | none => .resp 401 (.errMsg "Unauthorized")
    | some _ =>
      let parentIdStr : String :=
        match parentIdQ with
        | none => "0"
        | some s => if s == "" then "0" else s
      let run : Jval → Outcome := fun pid =>
        match pageNum pageQ with
        | .unmodeled =>
          .unmodeled "page is a numeric value outside the integer model"
        | jp =>
          let page : Int :=
            match jp with
            | .intVal n => n
            | _ => 0
          match getFilesOfParentId store.files
              [.smatch pid, .sskip (page * 20), .slimit 20] with
          | .error m => .crash m
          | .ok docs => .resp 200 (.fileList (docs.map processFile))
      if parentIdStr == "0" then run (Jval.vnum 0)
      else if !validIdString parentIdStr then .resp 401 (.errMsg "Unauthorized")
      else
        match getFileById store.files parentIdStr with
        | none => .resp 200 (.fileList [])
        | some folder =>
          if folder.type != "folder" then .resp 200 (.fileList [])
          else run (Jval.vstr parentIdStr)

/-- Result of `fileUtils.publishUnpublish` together with the catalog after
the call. -/
inductive PubResult where
  | failure : String → Nat → PubResult
  | success : Nat → OutFile → PubResult
deriving DecidableEq, Repr

/-- `findOneAndUpdate` on the files collection restricted to the query and
update shapes publishUnpublish uses: set `isPublic` on the first record
matching id and owner. -/
def updateFirst (files : List FileDoc) (fid uid : String) (pub : Bool) :
    List FileDoc :=
  match files with
  | [] => []
  | f :: rest =>
    if f._id == fid && f.userId == uid then
      { f with isPublic := pub } :: rest
    else
      f :: updateFirst rest fid uid pub

/-- src/utils/file.js `fileUtils.publishUnpublish`.  The fileId shape is
checked before authentication (hence 401, not 404, on a bad id); the
`ObjectId(userId)` calls are reached only after `isValidId(userId)` passed,
so they cannot throw. -/
def publishUnpublish (store : Store) (userId : Jval) (fileId : String)
    (setPublish : Bool) : PubResult × List FileDoc :=
  if !validIdString fileId then
    (.failure "Unauthorized" 401, store.files)
  else if !isValidId userId then
    (.failure "Unauthorized" 401, store.files)
  else
    match findUser store.users userId with
    | none => (.failure "Unauthorized" 401, store.files)
    | some uid =>
      match getFileByIdAndUser store.files fileId uid with
      | none => (.failure "Not found" 404, store.files)
      | some f =>
        let updated : FileDoc := { f with isPublic := setPublish }
        let files2 := updateFirst store.files fileId uid setPublish
        (.success 200
          { id := updated._id, userId := updated.userId, name := updated.name,
            type := updated.type, isPublic := updated.isPublic,
            parentId := updated.parentId }, files2)

/-- src/unnamed/part_000 `FilesController.putPublish` / `putUnpublish`
(both delegate to publishUnpublish, differing only in the boolean). -/
def putPublishCtrl (store : Store) (userId : Jval) (fileId : String)
    (setPublish : Bool) : Outcome × List FileDoc :=
  match publishUnpublish store userId fileId setPublish with
  | (.failure e c, fs) => (.resp c (.errMsg e), fs)
  | (.success c out, fs) => (.resp c (.fileOut out), fs)

/-- src/utils/file.js `fileUtils.isOwnerAndPublic`. -/
def isOwnerAndPublic (f : FileDoc) (userId : Jval) : Bool :=
  if (!f.isPublic && jFalsy userId)
      || (!jFalsy userId && Jval.vstr f.userId != userId && !f.isPublic) then
    false
  else
    true

/-- Blob Store content readable at a location. -/
def readBlob (blobs : List (String × String)) (p : String) : Option String :=
  (blobs.find? (fun b => b.1 == p)).map (fun b => b.2)

/-- src/utils/file.js `fileUtils.getFileData`: read the bytes at localPath
(suffixed by the size variant when one is given); any read failure —
including the undefined localPath of a folder record — yields the 404
error object, modelled as `none`. -/
def getFileData (blobs : List (String × String)) (f : FileDoc)
    (size : Option String) : Option String :=
  match f.localPath with
  | none => none
  | some p =>
    let path := match size with
      | none => p
      | some s => p ++ "_" ++ s
    readBlob blobs path

/-- src/unnamed/part_000 `FilesController.getFile` (readContent).  The
Content-Type header computed from the name is not modelled; the body is. -/
def getFileEndpoint (blobs : List (String × String)) (store : Store)
    (userId : Jval) (fileId : String) (size : Option String) : Outcome :=
  if !validIdString fileId then .resp 404 (.errMsg "Not found")
  else
    match getFileById store.files fileId with
    | none => .resp 404 (.errMsg "Not found")
    | some file =>
      if !isOwnerAndPublic file userId then .resp 404 (.errMsg "Not found")
      else if file.type == "folder" then
        .resp 400 (.errMsg "A folder doesn\x27t have content")
      else
        match getFileData blobs file size with
        | none => .resp 404 (.errMsg "Not found")
        | some d => .resp 200 (.bytes d)

/-! Concrete sample data used by witnesses and counterexamples. -/

def uidA : String := "aaaaaaaaaaaaaaaaaaaaaaaa"

def uidB : String := "bbbbbbbbbbbbbbbbbbbbbbbb"

def fidD : String := "dddddddddddddddddddddddd"

def fidE : String := "eeeeeeeeeeeeeeeeeeeeeeee"

def folderD : FileDoc :=
  { _id := fidD, userId := uidA, name := "docs", type := "folder",
    isPublic := false, parentId := .vnum 0, localPath := none }

def fileE : FileDoc :=
  { _id := fidE, userId := uidA, name := "notes.txt", type := "file",
    isPublic := false, parentId := .vnum 0,
    localPath := some "/tmp/files_manager/blob1" }

def sampleStore : Store := { users := [uidA, uidB], files := [folderD, fileE] }

def sampleBlobs : List (String × String) := [("/tmp/files_manager/blob1", "hello")]

def ctxOk : Ctx :=
  { blobWriteFails := false, blobErrMsg := "",
    freshId := "ffffffffffffffffffffffff",
    freshPath := "/tmp/files_manager/blob2",
    freshOid := "0123456789abcdef01234567" }

def ctxFail : Ctx :=
  { ctxOk with
    blobWriteFails := true,
    blobErrMsg := "ENOSPC: no space left on device" }

/-- Basic fact about token authentication: a resolvable identity is a
well-formed user-id string that the User Directory contains. -/
theorem findUser_eq_some {users : List String} {userId : Jval} {uid : String}
    (h : findUser users userId = some uid) :
    userId = Jval.vstr uid ∧ validIdString uid = true ∧
      users.contains uid = true := by
  cases userId with
  | vnull => simp [findUser] at h
  | vnum n => simp [findUser] at h
  | vstr s =>
    simp only [findUser] at h
    by_cases hv : (validIdString s && users.contains s) = true
    · rw [if_pos hv] at h
      cases h
      exact ⟨rfl, (Bool.and_eq_true _ _).mp hv |>.1,
        (Bool.and_eq_true _ _).mp hv |>.2⟩
    · rw [if_neg hv] at h
      cases h

/-- C10: a createFile request of type image with no resolvable identity (no
X-Token header, or a token with no Identity Store entry) passes the
`isValidId` gate because `ObjectId(null)` is accepted, enqueues an empty
thumbnail job on the file queue, and only then fails with 401 Unauthorized:
the 401 path is not free of side effects on the job queue. -/
theorem createFile_anonymous_image_enqueues
    (ctx : Ctx) (store : Store) (queue : List Job)
    (redis : List (String × String)) (nm dat : String) (pub : Bool)
    (pid : Jval) (t : String)
    (hmiss : redis.find? (fun kv => kv.1 == "auth_" ++ t) = none) :
    isValidId (getUserIdAndKey redis none) = true ∧
    getUserIdAndKey redis (some t) = Jval.vnull ∧
    postUpload ctx store queue (getUserIdAndKey redis none)
      { name := nm, type := "image", isPublic := pub, data := dat,
        parentId := pid } =
      { outcome := .resp 401 (.errMsg "Unauthorized"), files := store.files,
        queue := queue ++ [Job.emptyJob] } := by
  refine ⟨rfl, ?_, ?_⟩
  · simp [getUserIdAndKey, hmiss]
  · simp [getUserIdAndKey, postUpload, isValidId, jFalsy, findUser]

/-- C10 witness at a concrete Identity Store and request. -/
theorem createFile_anonymous_image_enqueues_witness :
    isValidId (getUserIdAndKey [("auth_tok1", uidA)] none) = true ∧
    getUserIdAndKey [("auth_tok1", uidA)] (some "tok2") = Jval.vnull ∧
    postUpload ctxOk sampleStore [] (getUserIdAndKey [("auth_tok1", uidA)] none)
      { name := "p.png", type := "image", isPublic := false, data := "aGk=",
        parentId := .vnum 0 } =
      { outcome := .resp 401 (.errMsg "Unauthorized"),
        files := sampleStore.files, queue := [Job.emptyJob] } :=
  createFile_anonymous_image_enqueues ctxOk sampleStore []
    [("auth_tok1", uidA)] "p.png" "aGk=" false (.vnum 0) "tok2" (by decide)

/-- C6: evaluation of postUpload at a failing blob write by an authenticated
user creating a type=file record.  `fileUtils.saveFile` does return the
error object with code 400 and performs no catalog insert, but the
controller then reads `response.body.type` — `response.body` is undefined
(the intended read was `request.body.type`, cf. line 91) — so the request
throws a TypeError and no 400 response is ever sent; the catalog is left
unchanged. -/
theorem createFile_save_error_eval :
    postUpload ctxFail sampleStore [] (Jval.vstr uidA)
      { name := "a.txt", type := "file", isPublic := false, data := "aGk=",
        parentId := .vnum 0 } =
      { outcome := .crash "TypeError: response.body is undefined",
        files := sampleStore.files, queue := [] } := by
  decide

/-- C5: evaluation of getIndex at a syntactically invalid parentId by an
authenticated user: the code answers 401 Unauthorized instead of the empty
list with status 200 promised by the claim and by the controller's own
docstring ("No validation of parentId needed"). -/
theorem listFiles_invalid_parent_eval :
    getIndex sampleStore (Jval.vstr uidA) (some "xyz") none =
      .resp 401 (.errMsg "Unauthorized") := by
  decide

/-- Only non-empty names are accepted types. -/
theorem typesAllowed_ne_empty {t : String} (h : typesAllowed.contains t = true) :
    (t == "") = false := by
  simp [typesAllowed] at h
  rcases h with h | h | h <;> simp [h]

/-- Bridge: when the body fails validation, postUpload answers 400 with the
validation message. -/
theorem postUpload_validation_error (ctx : Ctx) (store : Store)
    (queue : List Job) {userId : Jval} {uid : String} (b : ReqBody) {e : String}
    (hu : findUser store.users userId = some uid)
    (he : (validateBody store.files b).1 = some e) :
    (postUpload ctx store queue userId b).outcome = .resp 400 (.errMsg e) := by
  obtain ⟨huid, hvs, _⟩ := findUser_eq_some hu
  subst huid
  simp only [postUpload, isValidId, hvs, hu, he]
  rfl

/-- Bridge: when the body passes validation but the surviving parentId is
non-root and ill-shaped, the controller itself answers Parent not found. -/
theorem postUpload_ctrl_parent_invalid (ctx : Ctx) (store : Store)
    (queue : List Job) {userId : Jval} {uid : String} (b : ReqBody)
    (hu : findUser store.users userId = some uid)
    (he : (validateBody store.files b).1 = none)
    (hp : normParent b.parentId ≠ Jval.vnum 0)
    (hv : isValidId (normParent b.parentId) = false) :
    (postUpload ctx store queue userId b).outcome =
      .resp 400 (.errMsg "Parent not found") := by
  obtain ⟨huid, hvs, _⟩ := findUser_eq_some hu
  subst huid
  have h1 : (!isValidId (Jval.vstr uid)) = false := by simp [isValidId, hvs]
  simp only [postUpload, h1, hu, he]
  simp [show (validateBody store.files b).2.parentId = normParent b.parentId
    from rfl, hp, hv]

/-- The parentId normalisation never yields the string "0". -/
theorem normParent_ne_str0 (p : Jval) : normParent p ≠ Jval.vstr "0" := by
  unfold normParent
  split
  · simp
  · next h => simpa using h

/-- A well-formed id string is non-empty. -/
theorem validIdString_ne_empty {s : String} (h : validIdString s = true) :
    (s == "") = false := by
  by_cases hs : s = ""
  · subst hs
    exact absurd h (by decide)
  · simp [hs]

/-- validateBody, rule 1: a falsy name. -/
theorem validateBody_missing_name (files : List FileDoc) (b : ReqBody)
    (h : (b.name == "") = true) :
    (validateBody files b).1 = some "Missing name" := by
  simp only [validateBody, h]
  rfl

/-- validateBody, rule 2: a falsy or unrecognised type. -/
theorem validateBody_missing_type (files : List FileDoc) (b : ReqBody)
    (hne : (b.name == "") = false)
    (h : typesAllowed.contains b.type = false) :
    (validateBody files b).1 = some "Missing type" := by
  have hnmem : b.type ∉ typesAllowed := by simpa using h
  simp [validateBody, hne, hnmem]

/-- validateBody, rule 3: falsy data with a non-folder type. -/
theorem validateBody_missing_data (files : List FileDoc) (b : ReqBody)
    (hne : (b.name == "") = false)
    (htype : typesAllowed.contains b.type = true)
    (hd : (b.data == "") = true) (hf : b.type ≠ "folder") :
    (validateBody files b).1 = some "Missing data" := by
  have hte := typesAllowed_ne_empty htype
  have hmem : b.type ∈ typesAllowed := by simpa using htype
  simp [validateBody, hne, hte, hmem, hd, hf]

/-- validateBody skips the parent checks entirely when the normalised
parentId is falsy (null, 0, or the empty string). -/
theorem validateBody_parent_falsy (files : List FileDoc) (b : ReqBody)
    (hne : (b.name == "") = false)
    (htype : typesAllowed.contains b.type = true)
    (hde : (b.data == "" && b.type != "folder") = false)
    (htr : jFalsy (normParent b.parentId) = true) :
    (validateBody files b).1 = none := by
  have hte := typesAllowed_ne_empty htype
  have hmem : b.type ∈ typesAllowed := by simpa using htype
  simp [validateBody, hne, hte, hmem, hde, htr]

/-- validateBody, rule 4: with a truthy normalised parentId the message is
decided by the guarded parent lookup. -/
theorem validateBody_parent_branch (files : List FileDoc) (b : ReqBody)
    (hne : (b.name == "") = false)
    (htype : typesAllowed.contains b.type = true)
    (hde : (b.data == "" && b.type != "folder") = false)
    (htr : jFalsy (normParent b.parentId) = false) :
    (validateBody files b).1 =
      match (if isValidId (normParent b.parentId) then
               parentLookup files (normParent b.parentId) else none) with
      | none => some "Parent not found"
      | some f =>
        if f.type != "folder" then some "Parent is not a folder" else none := by
  have hte := typesAllowed_ne_empty htype
  have h0 : (normParent b.parentId != Jval.vstr "0") = true := by
    simp [normParent_ne_str0 b.parentId]
  have hmem : b.type ∈ typesAllowed := by simpa using htype
  simp [validateBody, hne, hte, hmem, hde, htr, h0]

/-- C2 counterexample: an authenticated createFile request that passes the
name/type/data rules and carries the non-root parentId `null` is *created*
(201) with a fresh ObjectId as its parentId, instead of failing with
Parent not found as the claim requires: `null` is falsy, so validateBody
skips the parent checks, and `isValidId(null)` is true, so the controller
guard passes too. -/
theorem createFile_parent_null_cex :
    (postUpload ctxOk sampleStore [] (Jval.vstr uidA)
      { name := "a.txt", type := "file", isPublic := false, data := "aGk=",
        parentId := Jval.vnull }).outcome =
      .resp 201 (.fileOut
        { id := "ffffffffffffffffffffffff", userId := uidA, name := "a.txt",
          type := "file", isPublic := false,
          parentId := Jval.vstr "0123456789abcdef01234567" }) ∧
    (postUpload ctxOk sampleStore [] (Jval.vstr uidA)
      { name := "a.txt", type := "file", isPublic := false, data := "aGk=",
        parentId := Jval.vnull }).outcome ≠
      .resp 400 (.errMsg "Parent not found") := by
  constructor
  · decide
  · decide

/-- C2 (amended): for every authenticated createFile request that passes the
name/type/data rules and whose parentId survives the root normalisation as a
non-root, non-null value: an ill-shaped identifier yields Parent not found
(400); a well-shaped identifier whose guarded lookup finds no File yields
Parent not found (400); a lookup hitting a non-folder File yields Parent is
not a folder (400).  (A null parentId instead slips through every parent
check and the file is created, see the counterexample.) -/
theorem createFile_parent_rules (ctx : Ctx) (store : Store) (queue : List Job)
    (userId : Jval) (uid : String) (b : ReqBody)
    (hu : findUser store.users userId = some uid)
    (hname : b.name ≠ "")
    (htype : b.type ∈ typesAllowed)
    (hdata : b.type = "folder" ∨ b.data ≠ "")
    (hroot : normParent b.parentId ≠ Jval.vnum 0)
    (hnull : normParent b.parentId ≠ Jval.vnull) :
    (isValidId (normParent b.parentId) = false →
      (postUpload ctx store queue userId b).outcome =
        .resp 400 (.errMsg "Parent not found")) ∧
    (isValidId (normParent b.parentId) = true →
      parentLookup store.files (normParent b.parentId) = none →
      (postUpload ctx store queue userId b).outcome =
        .resp 400 (.errMsg "Parent not found")) ∧
    (∀ f, parentLookup store.files (normParent b.parentId) = some f →
      f.type ≠ "folder" →
      (postUpload ctx store queue userId b).outcome =
        .resp 400 (.errMsg "Parent is not a folder")) := by
  have hname' : (b.name == "") = false := by simp [hname]
  have htype' : typesAllowed.contains b.type = true := by simpa using htype
  have hde : (b.data == "" && b.type != "folder") = false := by
    rcases hdata with h | h
    · simp [h]
    · simp [h]
  refine ⟨?_, ?_, ?_⟩
  · intro hv
    rcases hnp : normParent b.parentId with _ | n | s
    · exact absurd hnp hnull
    · rw [hnp] at hv
      exact absurd hv (by simp [isValidId])
    · rw [hnp] at hv
      by_cases hs : s = ""
      · subst hs
        have he := validateBody_parent_falsy store.files b hname' htype' hde
          (by rw [hnp]; rfl)
        exact postUpload_ctrl_parent_invalid ctx store queue b hu he hroot
          (by rw [hnp]; exact hv)
      · have htr : jFalsy (normParent b.parentId) = false := by
          rw [hnp]; simp [jFalsy, hs]
        have he := validateBody_parent_branch store.files b hname' htype' hde htr
        rw [hnp] at he
        rw [hv] at he
        simp only [if_neg (by simp : ¬ (false = true))] at he
        exact postUpload_validation_error ctx store queue b hu he
  · intro hv hlk
    have htr : jFalsy (normParent b.parentId) = false := by
      rcases hnp : normParent b.parentId with _ | n | s
      · exact absurd hnp hnull
      · have hn0 : ¬ n = 0 := by
          intro h
          exact hroot (by rw [hnp, h])
        simp [jFalsy, hn0]
      · rw [hnp] at hv
        exact validIdString_ne_empty hv
    have he := validateBody_parent_branch store.files b hname' htype' hde htr
    rw [hv, if_pos rfl, hlk] at he
    exact postUpload_validation_error ctx store queue b hu he
  · intro f hlk hft
    have hv : isValidId (normParent b.parentId) = true := by
      rcases hnp : normParent b.parentId with _ | n | s
      · exact absurd hnp hnull
      · rfl
      · rw [hnp] at hlk
        by_cases hss : validIdString s = true
        · simpa [isValidId] using hss
        · exfalso
          have hss' : validIdString s = false := by simpa using hss
          simp [parentLookup, objIdKey, hss'] at hlk
    have htr : jFalsy (normParent b.parentId) = false := by
      rcases hnp : normParent b.parentId with _ | n | s
      · exact absurd hnp hnull
      · have hn0 : ¬ n = 0 := by
          intro h
          exact hroot (by rw [hnp, h])
        simp [jFalsy, hn0]
      · rw [hnp] at hv
        exact validIdString_ne_empty hv
    have he := validateBody_parent_branch store.files b hname' htype' hde htr
    rw [hv, if_pos rfl, hlk] at he
    simp only [hft, ite_true, ite_false, bne_iff_ne, ne_eq,
      not_false_eq_true, if_true] at he
    exact postUpload_validation_error ctx store queue b hu he

/-- C2 witness: the amended rules at concrete inputs — an ill-shaped
parentId, a well-shaped but unknown parentId, and a parentId naming an
existing non-folder file. -/
theorem createFile_parent_rules_witness :
    (postUpload ctxOk sampleStore [] (Jval.vstr uidA)
      { name := "a.txt", type := "file", isPublic := false, data := "aGk=",
        parentId := Jval.vstr "xyz" }).outcome =
      .resp 400 (.errMsg "Parent not found") ∧
    (postUpload ctxOk sampleStore [] (Jval.vstr uidA)
      { name := "a.txt", type := "file", isPublic := false, data := "aGk=",
        parentId := Jval.vstr "cccccccccccccccccccccccc" }).outcome =
      .resp 400 (.errMsg "Parent not found") ∧
    (postUpload ctxOk sampleStore [] (Jval.vstr uidA)
      { name := "a.txt", type := "file", isPublic := false, data := "aGk=",
        parentId := Jval.vstr fidE }).outcome =
      .resp 400 (.errMsg "Parent is not a folder") := by
  refine ⟨?_, ?_, ?_⟩
  · exact (createFile_parent_rules ctxOk sampleStore [] (Jval.vstr uidA) uidA _
      (by decide) (by decide) (by decide) (Or.inr (by decide)) (by decide)
      (by decide)).1 (by decide)
  · exact (createFile_parent_rules ctxOk sampleStore [] (Jval.vstr uidA) uidA _
      (by decide) (by decide) (by decide) (Or.inr (by decide)) (by decide)
      (by decide)).2.1 (by decide) (by decide)
  · exact (createFile_parent_rules ctxOk sampleStore [] (Jval.vstr uidA) uidA _
      (by decide) (by decide) (by decide) (Or.inr (by decide)) (by decide)
      (by decide)).2.2 fileE (by decide) (by decide)

/-- C1: createFile validation is fail-fast in the fixed order name, type,
data, each failure answering 400 with its message, and authorization
failure is decided before any validation rule runs, answering 401 whatever
the body contains. -/
theorem createFile_validation_fail_fast (ctx : Ctx) (store : Store)
    (queue : List Job) (userId : Jval) (uid : String) (b : ReqBody) :
    (findUser store.users userId = none →
      (postUpload ctx store queue userId b).outcome =
        .resp 401 (.errMsg "Unauthorized")) ∧
    (findUser store.users userId = some uid →
      (b.name = "" →
        (postUpload ctx store queue userId b).outcome =
          .resp 400 (.errMsg "Missing name")) ∧
      (b.name ≠ "" → b.type ∉ typesAllowed →
        (postUpload ctx store queue userId b).outcome =
          .resp 400 (.errMsg "Missing type")) ∧
      (b.name ≠ "" → b.type ∈ typesAllowed → b.type ≠ "folder" → b.data = "" →
        (postUpload ctx store queue userId b).outcome =
          .resp 400 (.errMsg "Missing data"))) := by
  constructor
  · intro hn
    by_cases hvi : isValidId userId = true
    · have h1 : (!isValidId userId) = false := by simp [hvi]
      simp only [postUpload, h1, hn]
      rfl
    · have h1 : (!isValidId userId) = true := by
        simp only [Bool.not_eq_true] at hvi
        simp [hvi]
      simp [postUpload, h1]
  · intro hu
    refine ⟨?_, ?_, ?_⟩
    · intro h
      exact postUpload_validation_error ctx store queue b hu
        (validateBody_missing_name store.files b (by simp [h]))
    · intro h1 h2
      exact postUpload_validation_error ctx store queue b hu
        (validateBody_missing_type store.files b (by simp [h1])
          (by simpa using h2))
    · intro h1 h2 h3 h4
      exact postUpload_validation_error ctx store queue b hu
        (validateBody_missing_data store.files b (by simp [h1])
          (by simpa using h2) (by simp [h4]) h3)

/-- C1 witness: the three validation errors and the 401 at concrete
requests. -/
theorem createFile_validation_fail_fast_witness :
    (postUpload ctxOk sampleStore [] (Jval.vstr uidB)
      { name := "", type := "file", isPublic := false, data := "x",
        parentId := .vnum 0 }).outcome = .resp 400 (.errMsg "Missing name") ∧
    (postUpload ctxOk sampleStore [] (Jval.vstr uidB)
      { name := "n", type := "weird", isPublic := false, data := "x",
        parentId := .vnum 0 }).outcome = .resp 400 (.errMsg "Missing type") ∧
    (postUpload ctxOk sampleStore [] (Jval.vstr uidB)
      { name := "n", type := "file", isPublic := false, data := "",
        parentId := .vnum 0 }).outcome = .resp 400 (.errMsg "Missing data") ∧
    (postUpload ctxOk sampleStore [] Jval.vnull
      { name := "", type := "", isPublic := false, data := "",
        parentId := .vnum 0 }).outcome = .resp 401 (.errMsg "Unauthorized") := by
  refine ⟨?_, ?_, ?_, ?_⟩
  · exact ((createFile_validation_fail_fast ctxOk sampleStore []
      (Jval.vstr uidB) uidB _).2 (by decide)).1 rfl
  · exact ((createFile_validation_fail_fast ctxOk sampleStore []
      (Jval.vstr uidB) uidB _).2 (by decide)).2.1 (by decide) (by decide)
  · exact ((createFile_validation_fail_fast ctxOk sampleStore []
      (Jval.vstr uidB) uidB _).2 (by decide)).2.2 (by decide) (by decide)
      (by decide) rfl
  · exact (createFile_validation_fail_fast ctxOk sampleStore []
      Jval.vnull uidA _).1 rfl

/-- C3: for an existing non-folder File whose bytes are present in the Blob
Store: anonymous readContent succeeds when the File is public; anonymous
readContent on a private File answers Not found (404); and readContent with
a token resolving to the owner succeeds regardless of visibility. -/
theorem readContent_visibility (blobs : List (String × String)) (store : Store)
    (fid : String) (f : FileDoc) (p d : String)
    (hval : validIdString fid = true)
    (hf : getFileById store.files fid = some f)
    (hnf : f.type ≠ "folder")
    (hlp : f.localPath = some p)
    (hb : readBlob blobs p = some d)
    (hown : f.userId ≠ "") :
    (f.isPublic = true →
      getFileEndpoint blobs store Jval.vnull fid none = .resp 200 (.bytes d)) ∧
    (f.isPublic = false →
      getFileEndpoint blobs store Jval.vnull fid none =
        .resp 404 (.errMsg "Not found")) ∧
    (getFileEndpoint blobs store (Jval.vstr f.userId) fid none =
      .resp 200 (.bytes d)) := by
  refine ⟨?_, ?_, ?_⟩
  · intro hpub
    simp [getFileEndpoint, hval, hf, isOwnerAndPublic, jFalsy, hpub, hnf,
      getFileData, hlp, hb]
  · intro hpriv
    simp [getFileEndpoint, hval, hf, isOwnerAndPublic, jFalsy, hpriv]
  · simp [getFileEndpoint, hval, hf, isOwnerAndPublic, jFalsy, hown, hnf,
      getFileData, hlp, hb]

/-- Additional sample data: a second catalog with a public image owned by
user B next to the private file owned by user A. -/
def filePubG : FileDoc :=
  { _id := "abababababababababababab", userId := uidB, name := "pic.png",
    type := "image", isPublic := true, parentId := .vnum 0,
    localPath := some "/tmp/files_manager/blob3" }

def store2 : Store := { users := [uidA, uidB], files := [fileE, filePubG] }

def blobs2 : List (String × String) :=
  [("/tmp/files_manager/blob1", "hello"), ("/tmp/files_manager/blob3", "pngbytes")]

/-- C3 witness: the three visibility outcomes at concrete files. -/
theorem readContent_visibility_witness :
    getFileEndpoint blobs2 store2 Jval.vnull "abababababababababababab" none =
      .resp 200 (.bytes "pngbytes") ∧
    getFileEndpoint blobs2 store2 Jval.vnull fidE none =
      .resp 404 (.errMsg "Not found") ∧
    getFileEndpoint blobs2 store2 (Jval.vstr uidA) fidE none =
      .resp 200 (.bytes "hello") := by
  refine ⟨?_, ?_, ?_⟩
  · exact (readContent_visibility blobs2 store2 "abababababababababababab"
      filePubG "/tmp/files_manager/blob3" "pngbytes" (by decide) (by decide)
      (by decide) (by decide) (by decide) (by decide)).1 rfl
  · exact (readContent_visibility blobs2 store2 fidE fileE
      "/tmp/files_manager/blob1" "hello" (by decide) (by decide) (by decide)
      (by decide) (by decide) (by decide)).2.1 rfl
  · exact (readContent_visibility blobs2 store2 fidE fileE
      "/tmp/files_manager/blob1" "hello" (by decide) (by decide) (by decide)
      (by decide) (by decide) (by decide)).2.2

/-- C4: for an authenticated getShow call, a fileId owned by a different
user and a fileId matching no File at all produce the very same response,
status 404 with error Not found: the single hypothesis below covers both
situations at once (no record has this id *and* this owner), so
nonexistence and ownership mismatch are indistinguishable to the caller. -/
theorem getShow_not_found_indistinguishable (store : Store) (userId : Jval)
    (uid : String) (fid : String)
    (hu : findUser store.users userId = some uid)
    (hmiss : ∀ f ∈ store.files, f._id = fid → f.userId ≠ uid) :
    getShow store userId fid = .resp 404 (.errMsg "Not found") := by
  obtain ⟨huid, hvs, hc⟩ := findUser_eq_some hu
  subst huid
  have hth : objIdThrows (Jval.vstr uid) = false := by simp [objIdThrows, hvs]
  have hlk : getFileByIdAndUser store.files fid uid = none := by
    apply List.find?_eq_none.mpr
    intro f hfmem
    simp only [Bool.and_eq_true, beq_iff_eq, not_and]
    intro hid
    simpa using hmiss f hfmem hid
  by_cases hfv : validIdString fid = true
  · simp [getShow, hth, hu, hfv, isValidId, hvs, hlk]
  · have hfv' : validIdString fid = false := by simpa using hfv
    simp [getShow, hth, hu, hfv']

/-- C4 witness: user B requesting user A's file and requesting an id that
matches nothing receive identical responses. -/
theorem getShow_not_found_indistinguishable_witness :
    getShow sampleStore (Jval.vstr uidB) fidE = .resp 404 (.errMsg "Not found") ∧
    getShow sampleStore (Jval.vstr uidB) "cccccccccccccccccccccccc" =
      .resp 404 (.errMsg "Not found") := by
  constructor
  · exact getShow_not_found_indistinguishable sampleStore (Jval.vstr uidB)
      uidB fidE (by decide) (by decide)
  · exact getShow_not_found_indistinguishable sampleStore (Jval.vstr uidB)
      uidB "cccccccccccccccccccccccc" (by decide) (by decide)

/-- C7: setVisibility answers 401 for a syntactically invalid fileId (the
shape check precedes authentication — asymmetric from getShow's 404), and
Not found 404 for a well-shaped fileId that does not resolve to a File
owned by the authenticated caller. -/
theorem setVisibility_error_codes (store : Store) (userId : Jval)
    (fileId : String) (pub : Bool) (uid : String) :
    (validIdString fileId = false →
      (putPublishCtrl store userId fileId pub).1 =
        .resp 401 (.errMsg "Unauthorized")) ∧
    (validIdString fileId = true → findUser store.users userId = some uid →
      getFileByIdAndUser store.files fileId uid = none →
      (putPublishCtrl store userId fileId pub).1 =
        .resp 404 (.errMsg "Not found")) := by
  constructor
  · intro h
    simp [putPublishCtrl, publishUnpublish, h]
  · intro h hu hlk
    obtain ⟨huid, hvs, _⟩ := findUser_eq_some hu
    subst huid
    simp [putPublishCtrl, publishUnpublish, h, isValidId, hvs, hu, hlk]

/-- C7 witness: a malformed id versus another user's file id. -/
theorem setVisibility_error_codes_witness :
    (putPublishCtrl sampleStore (Jval.vstr uidB) "zz" false).1 =
      .resp 401 (.errMsg "Unauthorized") ∧
    (putPublishCtrl sampleStore (Jval.vstr uidB) fidE false).1 =
      .resp 404 (.errMsg "Not found") :=
  ⟨(setVisibility_error_codes sampleStore (Jval.vstr uidB) "zz" false uidB).1
      (by decide),
   (setVisibility_error_codes sampleStore (Jval.vstr uidB) fidE false uidB).2
      (by decide) (by decide) (by decide)⟩

/-- The findOneAndUpdate model touches nothing but the isPublic flag: every
catalog record is either returned unchanged or with only isPublic set. -/
theorem updateFirst_frame (files : List FileDoc) (fid uid : String)
    (pub : Bool) :
    List.Forall₂ (fun g g' => g' = g ∨ g' = { g with isPublic := pub })
      files (updateFirst files fid uid pub) := by
  induction files with
  | nil => exact List.Forall₂.nil
  | cons f rest ih =>
    unfold updateFirst
    by_cases h : (f._id == fid && f.userId == uid) = true
    · rw [if_pos h]
      exact List.Forall₂.cons (Or.inr rfl)
        (List.forall₂_same.mpr (fun x _ => Or.inl rfl))
    · rw [if_neg h]
      exact List.Forall₂.cons (Or.inl rfl) ih

/-- C8: a successful setVisibility call answers 200 with the projection of
the target record whose isPublic is the requested value, and the only field
of any stored record that changes is isPublic (id, userId, name, type,
parentId and localPath are untouched, and so is every other record). -/
theorem setVisibility_frame (store : Store) (userId : Jval) (fileId : String)
    (pub : Bool) (uid : String) (f : FileDoc)
    (hv : validIdString fileId = true)
    (hu : findUser store.users userId = some uid)
    (hf : getFileByIdAndUser store.files fileId uid = some f) :
    putPublishCtrl store userId fileId pub =
      (.resp 200 (.fileOut
        { id := f._id, userId := f.userId, name := f.name, type := f.type,
          isPublic := pub, parentId := f.parentId }),
       updateFirst store.files fileId uid pub) ∧
    List.Forall₂ (fun g g' => g' = g ∨ g' = { g with isPublic := pub })
      store.files (updateFirst store.files fileId uid pub) := by
  obtain ⟨huid, hvs, _⟩ := findUser_eq_some hu
  subst huid
  constructor
  · simp [putPublishCtrl, publishUnpublish, hv, isValidId, hvs, hu, hf]
  · exact updateFirst_frame store.files fileId uid pub

/-- C8 witness: publishing user A's private file mutates exactly its
isPublic flag and returns the updated projection. -/
theorem setVisibility_frame_witness :
    putPublishCtrl sampleStore (Jval.vstr uidA) fidE true =
      (.resp 200 (.fileOut
        { id := fidE, userId := uidA, name := "notes.txt", type := "file",
          isPublic := true, parentId := .vnum 0 }),
       updateFirst sampleStore.files fidE uidA true) ∧
    List.Forall₂ (fun g g' => g' = g ∨ g' = { g with isPublic := true })
      sampleStore.files (updateFirst sampleStore.files fidE uidA true) :=
  setVisibility_frame sampleStore (Jval.vstr uidA) fidE true uidA fileE
    (by decide) (by decide) (by decide)

/-- The records the aggregation pipeline of getIndex delivers: the catalog
records matching the parentId, in natural order, sliced to positions
page*20 .. page*20+20. -/
def pageSlice (files : List FileDoc) (pid : Jval) (page : Nat) : List FileDoc :=
  ((files.filter (fun f => f.parentId == pid)).drop (page * 20)).take 20

/-- The match/skip/limit pipeline computes exactly the page slice when the
page is non-negative. -/
theorem getFilesOfParentId_eq (files : List FileDoc) (pid : Jval) (n : Int)
    (h0 : 0 ≤ n) :
    getFilesOfParentId files [.smatch pid, .sskip (n * 20), .slimit 20] =
      .ok (pageSlice files pid n.toNat) := by
  have hneg : ¬ (n * 20 < 0) := by omega
  have ht : (n * 20).toNat = n.toNat * 20 := by omega
  simp [getFilesOfParentId, runStage, hneg, ht, pageSlice]

/-- getIndex on a well-formed page answers 200 with the projected page
slice, both for the root parentId and for a parentId naming an existing
folder. -/
theorem getIndex_eq_slice (store : Store) {userId : Jval} {uid : String}
    (parentIdQ : Option String) {s : String} {n : Int} (pid : Jval)
    (hu : findUser store.users userId = some uid)
    (hn : jsNumberVal s = JsNum.intVal n) (h0 : 0 ≤ n)
    (hpq : (parentIdQ = none ∧ pid = Jval.vnum 0) ∨
      (∃ p fo, parentIdQ = some p ∧ validIdString p = true ∧
        getFileById store.files p = some fo ∧ fo.type = "folder" ∧
        pid = Jval.vstr p)) :
    getIndex store userId parentIdQ (some s) =
      .resp 200 (.fileList
        ((pageSlice store.files pid n.toNat).map processFile)) := by
  obtain ⟨huid, hvs, _⟩ := findUser_eq_some hu
  subst huid
  have hth : objIdThrows (Jval.vstr uid) = false := by simp [objIdThrows, hvs]
  have hpage : pageNum (some s) = JsNum.intVal n := by simp [pageNum, hn]
  rcases hpq with ⟨hq, hp⟩ | ⟨p, fo, hq, hvp, hfo, hft, hp⟩
  · subst hq
    subst hp
    simp [getIndex, hth, hu, hpage, getFilesOfParentId_eq store.files _ n h0]
  · subst hq
    subst hp
    have hpe : (p == "") = false := validIdString_ne_empty hvp
    have hp0 : (p == "0") = false := by
      by_cases h : p = "0"
      · subst h
        exact absurd hvp (by decide)
      · simp [h]
    simp [getIndex, hth, hu, hpage, hpe, hp0, hvp, hfo, hft,
      getFilesOfParentId_eq store.files _ n h0]

/-- Successive 20-element pages of a duplicate-free list never share an
element. -/
theorem take_drop_pages_disjoint {α : Type} (l : List α)
    (hl : l.Nodup) (p : Nat) :
    ∀ x ∈ (l.drop (p * 20)).take 20, x ∉ (l.drop ((p + 1) * 20)).take 20 := by
  intro x hx hx'
  have hdd : l.drop ((p + 1) * 20) = (l.drop (p * 20)).drop 20 := by
    rw [List.drop_drop]
    congr 1
    omega
  have h2 : x ∈ (l.drop (p * 20)).drop 20 := by
    rw [hdd] at hx'
    exact List.take_subset _ _ hx'
  have hnd : (l.drop (p * 20)).Nodup := hl.sublist (List.drop_sublist _ _)
  exact List.disjoint_take_drop hnd (Nat.le_refl 20) hx h2

/-- Projected page slices for pages p and p+1 are disjoint whenever the
catalog ids are duplicate-free. -/
theorem pageSlice_map_disjoint (files : List FileDoc) (pid : Jval) (p : Nat)
    (hnd : (files.map FileDoc._id).Nodup) :
    ∀ x ∈ (pageSlice files pid p).map processFile,
      x ∉ (pageSlice files pid (p + 1)).map processFile := by
  intro x hx hx'
  have hlnd : ((files.filter (fun f => f.parentId == pid)).map FileDoc._id).Nodup :=
    hnd.sublist ((List.filter_sublist files).map _)
  obtain ⟨a, ha, hax⟩ := List.mem_map.mp hx
  obtain ⟨b, hb, hbx⟩ := List.mem_map.mp hx'
  have hid : a._id = b._id := by
    have h := hbx.trans hax.symm
    have := congrArg OutFile.id h
    simpa [processFile] using this.symm
  have ha' : a._id ∈
      (((files.filter (fun f => f.parentId == pid)).map FileDoc._id).drop
        (p * 20)).take 20 := by
    rw [← List.map_drop, ← List.map_take]
    exact List.mem_map_of_mem _ ha
  have hb' : b._id ∈
      (((files.filter (fun f => f.parentId == pid)).map FileDoc._id).drop
        ((p + 1) * 20)).take 20 := by
    rw [← List.map_drop, ← List.map_take]
    exact List.mem_map_of_mem _ hb
  rw [← hid] at hb'
  exact take_drop_pages_disjoint _ hlnd p _ ha' hb'

/-- C9 helper: a page whose Number() conversion is NaN makes getIndex
behave exactly as the page "0" does — the `|| 0` fallback and the isNaN
guard coerce NaN to page 0. -/
theorem getIndex_page_nan (store : Store) (userId : Jval)
    (parentIdQ : Option String) (t : String)
    (ht : jsNumberVal t = JsNum.nan) :
    getIndex store userId parentIdQ (some t) =
      getIndex store userId parentIdQ (some "0") := by
  have h0 : jsNumberVal "0" = JsNum.intVal 0 := by decide
  simp [getIndex, pageNum, ht, h0]

/-- C9: every authenticated listFiles call with an exactly-tracked integer
page returns the projected slice positions page*20 .. page*20+20 of the
catalog records matching the parentId in natural order (hence at most 20
items); the lists for pages p and p+1 share no item when catalog ids are
unique; and any page input whose Number() conversion is NaN is coerced to
page 0: the call answers exactly as page "0" does. -/
theorem listFiles_pagination (store : Store) (userId : Jval) (uid : String)
    (parentIdQ : Option String) (pid : Jval) (s s' : String) (n : Int)
    (hu : findUser store.users userId = some uid)
    (hn : jsNumberVal s = JsNum.intVal n) (h0 : 0 ≤ n)
    (hn' : jsNumberVal s' = JsNum.intVal (n + 1))
    (hnd : (store.files.map FileDoc._id).Nodup)
    (hpq : (parentIdQ = none ∧ pid = Jval.vnum 0) ∨
      (∃ p fo, parentIdQ = some p ∧ validIdString p = true ∧
        getFileById store.files p = some fo ∧ fo.type = "folder" ∧
        pid = Jval.vstr p)) :
    (∀ t, jsNumberVal t = JsNum.nan →
      getIndex store userId parentIdQ (some t) =
        getIndex store userId parentIdQ (some "0")) ∧
    getIndex store userId parentIdQ (some s) =
      .resp 200 (.fileList
        ((pageSlice store.files pid n.toNat).map processFile)) ∧
    getIndex store userId parentIdQ (some s') =
      .resp 200 (.fileList
        ((pageSlice store.files pid (n.toNat + 1)).map processFile)) ∧
    ((pageSlice store.files pid n.toNat).map processFile).length ≤ 20 ∧
    (∀ x, x ∈ (pageSlice store.files pid n.toNat).map processFile →
      x ∉ (pageSlice store.files pid (n.toNat + 1)).map processFile) := by
  refine ⟨?_, ?_, ?_, ?_, ?_⟩
  · intro t ht
    exact getIndex_page_nan store userId parentIdQ t ht
  · exact getIndex_eq_slice store parentIdQ pid hu hn h0 hpq
  · have h := getIndex_eq_slice store parentIdQ pid hu hn' (by omega) hpq
    rw [show (n + 1).toNat = n.toNat + 1 by omega] at h
    exact h
  · rw [List.length_map]
    exact List.length_take_le _ _
  · exact pageSlice_map_disjoint store.files pid n.toNat hnd

/-- C9 witness: the root listing of the sample catalog at pages 0 and 1,
and the coercion of the non-numeric page "abc" to the page "0" behavior. -/
theorem listFiles_pagination_witness :
    getIndex sampleStore (Jval.vstr uidA) none (some "abc") =
      getIndex sampleStore (Jval.vstr uidA) none (some "0") ∧
    getIndex sampleStore (Jval.vstr uidA) none (some "0") =
      .resp 200 (.fileList
        ((pageSlice sampleStore.files (Jval.vnum 0) 0).map processFile)) ∧
    getIndex sampleStore (Jval.vstr uidA) none (some "1") =
      .resp 200 (.fileList
        ((pageSlice sampleStore.files (Jval.vnum 0) 1).map processFile)) := by
  have h := listFiles_pagination sampleStore (Jval.vstr uidA) uidA none
    (Jval.vnum 0) "0" "1" 0 (by decide) (by decide) (by decide) (by decide)
    (by decide) (Or.inl ⟨rfl, rfl⟩)
  exact ⟨h.1 "abc" (by decide), h.2.1, h.2.2.1⟩

end FilesManager
